import Mathlib

/-!
Shallow embedding of the kvm2 docker-machine driver
(`pkg/kvm/kvm.go` of praveenkumar/machine-kvm2-driver).

External collaborators (the libvirt connection, domain and network
handles, the disk provisioner, the SSH readiness probe, and the
helpers `getDomain`, `lookupIP`, `createNetwork`, `createDomain`,
`getConnection` living in other files of the repository) are modelled
as environment oracles: each embedded operation takes a record of the
results those calls would produce, and additionally returns the list
of observable side-effect events it performs (shutdown requests,
address-resolver invocations, sleeps, chmods, ...), so that claims of
the form "never issues X" are statable.

Machine integers (the libvirt domain-state enum, file modes) are
`Nat`. Go's `errors.Wrap(err, msg)` produces the message
`msg ++ ": " ++ err`, embedded as `wrap`.
-/

set_option autoImplicit false

namespace KVM

/-- Caller-facing lifecycle state, the `state.State` enum of
docker-machine's libmachine (`None, Running, Paused, Saved, Stopped,
Stopping, Starting, Error, Timeout`). -/
inductive MState where
  | None
  | Running
  | Paused
  | Saved
  | Stopped
  | Stopping
  | Starting
  | Error
  | Timeout
  deriving DecidableEq, Repr

/-- `state.State.String()` from libmachine: `None` prints as the empty
string, the others print their name. -/
def MState.str : MState → String
  | .None => ""
  | .Running => "Running"
  | .Paused => "Paused"
  | .Saved => "Saved"
  | .Stopped => "Stopped"
  | .Stopping => "Stopping"
  | .Starting => "Starting"
  | .Error => "Error"
  | .Timeout => "Timeout"

/-- libvirt native domain-state constants (`libvirt-go`). The native
type is an open machine integer, embedded as `Nat`. -/
def DOMAIN_NOSTATE : Nat := 0

def DOMAIN_RUNNING : Nat := 1

def DOMAIN_BLOCKED : Nat := 2

def DOMAIN_PAUSED : Nat := 3

def DOMAIN_SHUTDOWN : Nat := 4

def DOMAIN_SHUTOFF : Nat := 5

def DOMAIN_CRASHED : Nat := 6

def DOMAIN_PMSUSPENDED : Nat := 7

/-- `errors.Wrap(err, msg)`: the wrapped error's message. -/
def wrap (msg e : String) : String := msg ++ ": " ++ e

/-- The `switch libvirtState` of `Driver.GetState`
(kvm.go lines 201-218): translation from the native libvirt domain
state to the caller-facing lifecycle state.  The Go `switch` has a
`default` arm returning `state.None`, embedded as the final `else`. -/
def domainStateToState (s : Nat) : MState :=
  if s = DOMAIN_RUNNING ∨ s = DOMAIN_SHUTDOWN then MState.Running
  else if s = DOMAIN_BLOCKED ∨ s = DOMAIN_CRASHED then MState.Error
  else if s = DOMAIN_PAUSED then MState.Paused
  else if s = DOMAIN_SHUTOFF then MState.Stopped
  else if s = DOMAIN_PMSUSPENDED then MState.Saved
  else if s = DOMAIN_NOSTATE then MState.None
  else MState.None

/-- Environment of one `Driver.GetState` call: the outcome of
`d.getDomain()` (an error, or success) and the outcome of
`dom.GetState()` (an error, or the native state integer). -/
structure HVState where
  getDomainErr : Option String
  domStateRes : Except String Nat
  deriving Repr

/-- `Driver.GetState` (kvm.go lines 177-219).  Acquires the domain
(an error aborts wrapped as "getting connection"), queries the native
state (an error aborts wrapped as "getting domain state"), and
translates via the switch. -/
def GetState (hv : HVState) : Except String MState :=
  match hv.getDomainErr with
  | some e => Except.error (wrap "getting connection" e)
  | none =>
    match hv.domStateRes with
    | Except.error e => Except.error (wrap "getting domain state" e)
    | Except.ok s => Except.ok (domainStateToState s)

/-- Observable side effects performed by the embedded operations. -/
inductive Event where
  | lookupIPCall
  | getIPCall
  | shutdownCall
  | domCreateCall
  | sleep (seconds : Nat)
  | chmod (mode : Nat)
  | networkDestroy
  | networkUndefine
  | domainDestroy
  | domainUndefine
  | makeDiskImageCall
  | createDomainCall
  | createNetworkCall
  | waitForSSHCall
  deriving DecidableEq, Repr

/-- Environment of one `Driver.GetIP` call: the environment of the
inner `GetState` call, and the outcome of `d.lookupIP()` (the address
resolver, defined in another file of the repository and treated as an
oracle). -/
structure GetIPEnv where
  hv : HVState
  lookupIPRes : Except String String
  deriving Repr

/-- `Driver.GetIP` (kvm.go lines 221-235), with its event trace.
First calls `GetState`; a state error aborts wrapped as "machine in
unknown state"; a non-`Running` state aborts with
"host is not running" WITHOUT calling `d.lookupIP`; otherwise
`d.lookupIP` is invoked (event `lookupIPCall`) and its error, if any,
is wrapped as "getting IP". -/
def GetIP (env : GetIPEnv) : Except String String × List Event :=
  match GetState env.hv with
  | Except.error e => (Except.error (wrap "machine in unknown state" e), [])
  | Except.ok s =>
    if s ≠ MState.Running then (Except.error "host is not running", [])
    else
      match env.lookupIPRes with
      | Except.error e => (Except.error (wrap "getting IP" e), [Event.lookupIPCall])
      | Except.ok ip => (Except.ok ip, [Event.lookupIPCall])

/-- The mutable driver state the embedded operations touch: the
`Driver` struct's `BaseDriver.IPAddress` field together with the
identifying names (kvm.go lines 42-73). -/
structure Driver where
  MachineName : String
  PrivateNetwork : String
  IPAddress : String
  deriving Repr

/-- Environment of one `Driver.Stop` call.  `stateQuery 0` is the
initial `GetState`; `stateQuery 1` .. `stateQuery 60` are the calls
made by the shutdown-wait loop. -/
structure StopEnv where
  stateQuery : Nat → HVState
  getDomainErr : Option String
  shutdownErr : Option String

/-- The `for i := 0; i < 60; i++` shutdown-wait loop of `Driver.Stop`
(kvm.go lines 389-399): `i` is the next query index, the second
argument the remaining iterations.  `some r` means the loop returned
`r` from `Stop`; `none` means the budget was exhausted and control
falls through.  Each iteration that neither returns nor errors sleeps
1 second. -/
def stopPoll (q : Nat → HVState) : Nat → Nat → Option (Except String Unit) × List Event
  | _, 0 => (none, [])
  | i, r + 1 =>
    match GetState (q i) with
    | Except.error e => (some (Except.error (wrap "Error getting state of VM" e)), [])
    | Except.ok s =>
      if s = MState.Stopped then (some (Except.ok ()), [])
      else
        let next := stopPoll q (i + 1) r
        (next.1, Event.sleep 1 :: next.2)

/-- `Driver.Stop` (kvm.go lines 370-404).  Its first action sets
`d.IPAddress = ""`.  Then it queries state; if the state is not
`Stopped` it acquires the domain, issues `dom.Shutdown()` (event
`shutdownCall`) and polls up to 60 times.  If the initial state IS
`Stopped`, the `if s != state.Stopped` block is skipped and control
falls through to the final
`fmt.Errorf("Could not stop VM, current state %s", s.String())`. -/
def Stop (env : StopEnv) (d : Driver) : Driver × Except String Unit × List Event :=
  let d1 := { d with IPAddress := "" }
  match GetState (env.stateQuery 0) with
  | Except.error e => (d1, Except.error (wrap "getting state of VM" e), [])
  | Except.ok s =>
    if s ≠ MState.Stopped then
      match env.getDomainErr with
      | some e => (d1, Except.error (wrap "getting connection" e), [])
      | none =>
        match env.shutdownErr with
        | some e => (d1, Except.error (wrap "stopping vm" e), [Event.shutdownCall])
        | none =>
          let pr := stopPoll env.stateQuery 1 60
          match pr.1 with
          | some r => (d1, r, Event.shutdownCall :: pr.2)
          | none =>
            (d1, Except.error ("Could not stop VM, current state " ++ MState.str s),
              Event.shutdownCall :: pr.2)
    else
      (d1, Except.error ("Could not stop VM, current state " ++ MState.str s), [])

/-- Environment of one `Driver.Start` call.  `ipQuery i` is the
environment of the `d.GetIP()` call made on loop iteration `i`. -/
structure StartEnv where
  getDomainErr : Option String
  domCreateErr : Option String
  ipQuery : Nat → GetIPEnv
  waitForSSHErr : Option String

/-- The `for i := 0; i <= 40; i++` IP-wait loop of `Driver.Start`
(kvm.go lines 297-313): `i` is the loop counter, the second argument
the remaining iterations (41 in total, since the bound is
inclusive).  Each `d.GetIP()` call is the event `getIPCall`; an error
returns from `Start` wrapped as "getting ip during machine start"; an
empty IP sleeps 3 seconds and continues; a non-empty IP is recorded
in `d.IPAddress` and breaks. -/
def ipWaitLoop (q : Nat → GetIPEnv) : Nat → Nat → Driver → Driver × Option String × List Event
  | _, 0, d => (d, none, [])
  | i, r + 1, d =>
    match GetIP (q i) with
    | (Except.error e, evs) =>
      (d, some (wrap "getting ip during machine start" e), Event.getIPCall :: evs)
    | (Except.ok ip, evs) =>
      if ip = "" then
        let next := ipWaitLoop q (i + 1) r d
        (next.1, next.2.1, Event.getIPCall :: evs ++ Event.sleep 3 :: next.2.2)
      else
        ({ d with IPAddress := ip }, none, Event.getIPCall :: evs)

/-- `Driver.Start` (kvm.go lines 283-326).  Acquires the domain, boots
it with `dom.Create()` (event `domCreateCall`), runs the IP-wait loop
(41 iterations: `i` from 0 to 40 inclusive), checks the timeout
condition `d.IPAddress == ""`, then waits for SSH readiness (event
`waitForSSHCall`); if that wait fails the recorded IP is cleared and
the failure surfaced wrapped as "SSH not available after waiting". -/
def Start (env : StartEnv) (d : Driver) : Driver × Except String Unit × List Event :=
  match env.getDomainErr with
  | some e => (d, Except.error (wrap "getting connection" e), [])
  | none =>
    match env.domCreateErr with
    | some e => (d, Except.error (wrap "Error creating VM" e), [Event.domCreateCall])
    | none =>
      let lp := ipWaitLoop env.ipQuery 0 41 d
      match lp.2.1 with
      | some e => (lp.1, Except.error e, Event.domCreateCall :: lp.2.2)
      | none =>
        if lp.1.IPAddress = "" then
          (lp.1, Except.error "Machine didn\x27t return an IP after 120 seconds",
            Event.domCreateCall :: lp.2.2)
        else
          match env.waitForSSHErr with
          | some e =>
            ({ lp.1 with IPAddress := "" },
              Except.error (wrap "SSH not available after waiting" e),
              Event.domCreateCall :: (lp.2.2 ++ [Event.waitForSSHCall]))
          | none => (lp.1, Except.ok (), Event.domCreateCall :: (lp.2.2 ++ [Event.waitForSSHCall]))

/-- Environment of one `Driver.Remove` call: the outcome of
`getConnection()`, and whether `LookupNetworkByName` /
`LookupDomainByName` return a non-nil handle (on lookup error the
returned handle is nil and the code only logs a warning). -/
structure RemoveEnv where
  connErr : Option String
  networkFound : Bool
  domainFound : Bool

/-- `Driver.Remove` (kvm.go lines 406-438).  Connection failure aborts
wrapped as "getting connection".  The network and the domain are
looked up independently; a failed lookup is logged and skipped; a
found handle is destroyed then undefined.  The function then returns
nil unconditionally. -/
def Remove (env : RemoveEnv) : Except String Unit × List Event :=
  match env.connErr with
  | some e => (Except.error (wrap "getting connection" e), [])
  | none =>
    let netEvs := if env.networkFound then [Event.networkDestroy, Event.networkUndefine] else []
    let domEvs := if env.domainFound then [Event.domainDestroy, Event.domainUndefine] else []
    (Except.ok (), netEvs ++ domEvs)

/-- One step of the dir-permission walk of `Driver.Create`
(kvm.go lines 341-352): with `mode := info.Mode()`, when
`mode&0011 != 1` (the octal constant `0011` is 9) the mode becomes
`mode |= 0011` via `os.Chmod`; otherwise the directory is left
untouched. -/
def stepMode (m : Nat) : Nat := if m &&& 9 ≠ 1 then m ||| 9 else m

/-- The walk `for dir := storePath; dir != "/"; dir = filepath.Dir(dir)`
of `Driver.Create` (kvm.go lines 341-352), over the `os.Stat` results
of the visited directories in order.  A `Stat` error returns it from
`Create` immediately; otherwise the directory's mode is updated by
`stepMode`, emitting a `chmod` event when `os.Chmod` is called.
Returns (error if any, final modes of the processed dirs, events). -/
def permWalk : List (Except String Nat) → Option String × List Nat × List Event
  | [] => (none, [], [])
  | st :: rest =>
    match st with
    | Except.error e => (some e, [], [])
    | Except.ok mode =>
      let ev : List Event := if mode &&& 9 ≠ 1 then [Event.chmod (mode ||| 9)] else []
      let next := permWalk rest
      (next.1, stepMode mode :: next.2.1, ev ++ next.2.2)

/-- Environment of one `Driver.Create` call: outcomes of
`d.createNetwork()`, `os.MkdirAll`, the `os.Stat` calls of the
permission walk, `pkgdrivers.MakeDiskImage`, `d.createDomain()`, and
the environment of the final `d.Start()`. -/
structure CreateEnv where
  createNetworkErr : Option String
  mkdirAllErr : Option String
  dirStats : List (Except String Nat)
  makeDiskImageErr : Option String
  createDomainErr : Option String
  startEnv : StartEnv

/-- `Driver.Create` (kvm.go lines 328-368).  Steps in order: create
the network (event `createNetworkCall`, error wrapped "creating
network"); `MkdirAll` (error wrapped "Error making store path
directory"); the permission walk (a `Stat` error is returned
unwrapped); `MakeDiskImage` (event `makeDiskImageCall`, error wrapped
"Error creating disk"); `createDomain` (event `createDomainCall`,
error wrapped "creating domain"); then `Start`. -/
def Create (env : CreateEnv) (d : Driver) : Driver × Except String Unit × List Event :=
  match env.createNetworkErr with
  | some e => (d, Except.error (wrap "creating network" e), [Event.createNetworkCall])
  | none =>
    match env.mkdirAllErr with
    | some e =>
      (d, Except.error (wrap "Error making store path directory" e), [Event.createNetworkCall])
    | none =>
      let walk := permWalk env.dirStats
      match walk.1 with
      | some e => (d, Except.error e, Event.createNetworkCall :: walk.2.2)
      | none =>
        match env.makeDiskImageErr with
        | some e =>
          (d, Except.error (wrap "Error creating disk" e),
            Event.createNetworkCall :: walk.2.2 ++ [Event.makeDiskImageCall])
        | none =>
          match env.createDomainErr with
          | some e =>
            (d, Except.error (wrap "creating domain" e),
              Event.createNetworkCall :: walk.2.2
                ++ [Event.makeDiskImageCall, Event.createDomainCall])
          | none =>
            let st := Start env.startEnv d
            (st.1, st.2.1,
              Event.createNetworkCall :: walk.2.2
                ++ [Event.makeDiskImageCall, Event.createDomainCall] ++ st.2.2)

end KVM

namespace KVM

/-- C3: the translation table, its default, and that a successful
native-state query never yields an error from `GetState`. -/
theorem getState_translation_total :
    domainStateToState DOMAIN_RUNNING = MState.Running ∧
    domainStateToState DOMAIN_SHUTDOWN = MState.Running ∧
    domainStateToState DOMAIN_BLOCKED = MState.Error ∧
    domainStateToState DOMAIN_CRASHED = MState.Error ∧
    domainStateToState DOMAIN_PAUSED = MState.Paused ∧
    domainStateToState DOMAIN_SHUTOFF = MState.Stopped ∧
    domainStateToState DOMAIN_PMSUSPENDED = MState.Saved ∧
    domainStateToState DOMAIN_NOSTATE = MState.None ∧
    (∀ n : Nat, 7 < n → domainStateToState n = MState.None) ∧
    (∀ n : Nat, GetState { getDomainErr := none, domStateRes := Except.ok n }
      = Except.ok (domainStateToState n)) := by
  refine ⟨rfl, rfl, rfl, rfl, rfl, rfl, rfl, rfl, ?_, fun n => rfl⟩
  intro n hn
  simp only [domainStateToState, DOMAIN_RUNNING, DOMAIN_SHUTDOWN, DOMAIN_BLOCKED,
    DOMAIN_CRASHED, DOMAIN_PAUSED, DOMAIN_SHUTOFF, DOMAIN_PMSUSPENDED, DOMAIN_NOSTATE]
  rw [if_neg (by omega), if_neg (by omega), if_neg (by omega), if_neg (by omega),
    if_neg (by omega), if_neg (by omega)]

/-- C3 witness: the unmapped native value 99 translates to `None`. -/
theorem getState_translation_total_witness :
    7 < 99 ∧ domainStateToState 99 = MState.None :=
  ⟨by norm_num, getState_translation_total.2.2.2.2.2.2.2.2.1 99 (by norm_num)⟩

/-- Helper: `GetIP` on a non-`Running` translated state. -/
theorem GetIP_not_running_shape (env : GetIPEnv) (s : MState)
    (hs : GetState env.hv = Except.ok s) (hr : s ≠ MState.Running) :
    GetIP env = (Except.error "host is not running", []) := by
  unfold GetIP
  rw [hs]
  simp [hr]

/-- C5: whenever the translated state is anything other than
`Running`, `GetIP` returns the "host is not running" error and its
event trace is empty — in particular the address resolver
`d.lookupIP` is never invoked. -/
theorem getIP_not_running_never_resolves (env : GetIPEnv) (s : MState)
    (hs : GetState env.hv = Except.ok s) (hr : s ≠ MState.Running) :
    GetIP env = (Except.error "host is not running", []) :=
  GetIP_not_running_shape env s hs hr

/-- C5 witness: a machine whose domain is shut off (state `Stopped`). -/
theorem getIP_not_running_never_resolves_witness :
    GetState { getDomainErr := none, domStateRes := Except.ok DOMAIN_SHUTOFF }
        = Except.ok MState.Stopped ∧
    MState.Stopped ≠ MState.Running ∧
    GetIP { hv := { getDomainErr := none, domStateRes := Except.ok DOMAIN_SHUTOFF },
            lookupIPRes := Except.ok "192.168.39.2" }
      = (Except.error "host is not running", []) :=
  ⟨rfl, by decide,
    getIP_not_running_never_resolves
      { hv := { getDomainErr := none, domStateRes := Except.ok DOMAIN_SHUTOFF },
        lookupIPRes := Except.ok "192.168.39.2" }
      MState.Stopped rfl (by decide)⟩

/-- The `GetState` environment of a machine whose domain is shut off:
every query reports native state `DOMAIN_SHUTOFF`, i.e. `Stopped`. -/
def stoppedQuery : HVState := { getDomainErr := none, domStateRes := Except.ok DOMAIN_SHUTOFF }

/-- C1 evidence: calling `Stop` on a machine already in `Stopped`
state clears the recorded IP and issues no shutdown request (empty
event trace), but the code then falls through past the
`if s != state.Stopped` block to the final `fmt.Errorf` and returns
the error "Could not stop VM, current state Stopped" instead of the
success the spec requires. -/
theorem stop_on_stopped_no_shutdown_but_error :
    Stop { stateQuery := fun _ => stoppedQuery, getDomainErr := none, shutdownErr := none }
        { MachineName := "minikube", PrivateNetwork := "minikube-net",
          IPAddress := "192.168.39.2" }
      = ({ MachineName := "minikube", PrivateNetwork := "minikube-net", IPAddress := "" },
          Except.error "Could not stop VM, current state Stopped", []) := by
  rfl

/-- C10: every `Stop` call sets the machine's recorded IP address to
the empty string as its first action; no later branch restores it, so
the driver state returned by `Stop` always carries an empty IP, on
success and on every error path alike. -/
theorem stop_always_clears_ip (env : StopEnv) (d : Driver) :
    ((Stop env d).1).IPAddress = "" := by
  unfold Stop
  cases GetState (env.stateQuery 0) with
  | error e => rfl
  | ok s =>
    dsimp only
    split
    · cases env.getDomainErr with
      | some e => rfl
      | none =>
        cases env.shutdownErr with
        | some e => rfl
        | none =>
          dsimp only
          cases (stopPoll env.stateQuery 1 60).1 with
          | some r => rfl
          | none => rfl
    · rfl

/-- C6: as long as the hypervisor connection opens, `Remove` returns
success whatever the lookups report — in particular when both the
network and the domain are absent — and two successive calls both
return success.  Absence of a sub-resource can therefore never make
`Remove` fail. -/
theorem remove_idempotent_success (env1 env2 : RemoveEnv)
    (h1 : env1.connErr = none) (h2 : env2.connErr = none) :
    (Remove env1).1 = Except.ok () ∧ (Remove env2).1 = Except.ok () := by
  unfold Remove
  rw [h1, h2]
  exact ⟨rfl, rfl⟩

/-- C6 witness: `Remove` twice on a machine whose domain and network
were never created. -/
theorem remove_idempotent_success_witness :
    ({ connErr := none, networkFound := false, domainFound := false : RemoveEnv }).connErr
        = none ∧
    (Remove { connErr := none, networkFound := false, domainFound := false }).1
        = Except.ok () ∧
    (Remove { connErr := none, networkFound := false, domainFound := false }).1
        = Except.ok () :=
  ⟨rfl,
    remove_idempotent_success
      { connErr := none, networkFound := false, domainFound := false }
      { connErr := none, networkFound := false, domainFound := false } rfl rfl⟩

/-- Every event the permission walk emits is a `chmod`. -/
theorem permWalk_events_are_chmods (stats : List (Except String Nat)) :
    ∀ ev ∈ (permWalk stats).2.2, ∃ m, ev = Event.chmod m := by
  induction stats with
  | nil => intro ev hev; simp [permWalk] at hev
  | cons st rest ih =>
    intro ev hev
    cases st with
    | error e => simp [permWalk] at hev
    | ok mode =>
      simp only [permWalk, List.mem_append] at hev
      rcases hev with hev | hev
      · by_cases h9 : mode &&& 9 ≠ 1
        · rw [if_pos h9] at hev
          simp at hev
          exact ⟨mode ||| 9, hev⟩
        · rw [if_neg h9] at hev
          simp at hev
      · exact ih ev hev

/-- C7: if the network step, the `MkdirAll` step and the permission
walk all succeed but disk provisioning fails with `e`, `Create`
returns `e` wrapped as "Error creating disk" and `createDomain` is
never invoked (no `createDomainCall` event). -/
theorem create_disk_failure_aborts (env : CreateEnv) (d : Driver) (e : String)
    (hnet : env.createNetworkErr = none) (hmk : env.mkdirAllErr = none)
    (hwalk : (permWalk env.dirStats).1 = none)
    (hdisk : env.makeDiskImageErr = some e) :
    (Create env d).2.1 = Except.error (wrap "Error creating disk" e) ∧
    Event.createDomainCall ∉ (Create env d).2.2 := by
  unfold Create
  rw [hnet, hmk]
  dsimp only
  rw [hwalk, hdisk]
  refine ⟨rfl, ?_⟩
  intro hmem
  rcases List.mem_cons.mp hmem with h | h
  · exact Event.noConfusion h
  · rcases List.mem_append.mp h with h2 | h2
    · obtain ⟨m, hm⟩ := permWalk_events_are_chmods env.dirStats _ h2
      exact Event.noConfusion hm
    · simp only [List.mem_singleton] at h2
      exact Event.noConfusion h2

/-- C7 witness: disk provisioning fails on an otherwise healthy run
(one walked directory, mode 0o755). -/
theorem create_disk_failure_aborts_witness :
    (permWalk [Except.ok 493]).1 = none ∧
    (Create { createNetworkErr := none, mkdirAllErr := none, dirStats := [Except.ok 493],
              makeDiskImageErr := some "no space", createDomainErr := none,
              startEnv := { getDomainErr := none, domCreateErr := none,
                            ipQuery := fun _ => { hv := stoppedQuery,
                                                  lookupIPRes := Except.ok "" },
                            waitForSSHErr := none } }
            { MachineName := "minikube", PrivateNetwork := "minikube-net", IPAddress := "" }).2.1
        = Except.error (wrap "Error creating disk" "no space") ∧
    Event.createDomainCall ∉
      (Create { createNetworkErr := none, mkdirAllErr := none, dirStats := [Except.ok 493],
                makeDiskImageErr := some "no space", createDomainErr := none,
                startEnv := { getDomainErr := none, domCreateErr := none,
                              ipQuery := fun _ => { hv := stoppedQuery,
                                                    lookupIPRes := Except.ok "" },
                              waitForSSHErr := none } }
              { MachineName := "minikube", PrivateNetwork := "minikube-net",
                IPAddress := "" }).2.2 :=
  ⟨rfl,
    create_disk_failure_aborts
      { createNetworkErr := none, mkdirAllErr := none, dirStats := [Except.ok 493],
        makeDiskImageErr := some "no space", createDomainErr := none,
        startEnv := { getDomainErr := none, domCreateErr := none,
                      ipQuery := fun _ => { hv := stoppedQuery, lookupIPRes := Except.ok "" },
                      waitForSSHErr := none } }
      { MachineName := "minikube", PrivateNetwork := "minikube-net", IPAddress := "" }
      "no space" rfl rfl rfl rfl⟩

/-- The mask `0011` (octal) = 9 has only bits 0 and 3. -/
theorem testBit_nine_eq_false (i : Nat) (h0 : i ≠ 0) (h3 : i ≠ 3) :
    Nat.testBit 9 i = false := by
  rcases i with _ | _ | _ | _ | i
  · exact absurd rfl h0
  · decide
  · decide
  · exact absurd rfl h3
  · apply Nat.testBit_eq_false_of_lt
    calc 9 < 2 ^ 4 := by norm_num
    _ ≤ 2 ^ (i + 4) := Nat.pow_le_pow_right (by norm_num) (by omega)

/-- C8: a successful permission walk visits every directory from the
store path up to the root, leaves each with mode `stepMode m`; every
resulting mode has the world-execute bit (bit 0) set — so traversal
execute permission is present — and `stepMode` changes nothing outside
the two execute bits of the mask `0011` (bits 0 and 3), which it can
only set, never clear. -/
theorem create_perm_walk_execute (ms : List Nat) :
    (permWalk (ms.map Except.ok)).1 = none ∧
    (permWalk (ms.map Except.ok)).2.1 = ms.map stepMode ∧
    (∀ m : Nat, (stepMode m).testBit 0 = true) ∧
    (∀ m i : Nat, i ≠ 0 → i ≠ 3 → (stepMode m).testBit i = m.testBit i) ∧
    (∀ m i : Nat, m.testBit i = true → (stepMode m).testBit i = true) := by
  refine ⟨?_, ?_, ?_, ?_, ?_⟩
  · induction ms with
    | nil => rfl
    | cons m rest ih => simpa [permWalk] using ih
  · induction ms with
    | nil => rfl
    | cons m rest ih => simp [permWalk, ih]
  · intro m
    unfold stepMode
    by_cases h : m &&& 9 ≠ 1
    · rw [if_pos h, Nat.testBit_lor]
      simp
    · rw [if_neg h]
      push_neg at h
      have := congrArg (fun x => Nat.testBit x 0) h
      simpa [Nat.testBit_land] using this
  · intro m i h0 h3
    unfold stepMode
    by_cases h : m &&& 9 ≠ 1
    · rw [if_pos h, Nat.testBit_lor, testBit_nine_eq_false i h0 h3, Bool.or_false]
    · rw [if_neg h]
  · intro m i hm
    unfold stepMode
    by_cases h : m &&& 9 ≠ 1
    · rw [if_pos h, Nat.testBit_lor, hm, Bool.true_or]
    · rw [if_neg h]
      exact hm

/-- C8 witness: a store path three levels deep with modes 0o644,
0o755 and 0o601; the walk succeeds, sets the execute bits where the
condition fires, leaves bit 6 (owner read, 0o100-range) untouched and
preserves already-set bits. -/
theorem create_perm_walk_execute_witness :
    (permWalk ([420, 493, 385].map Except.ok)).1 = none ∧
    (permWalk ([420, 493, 385].map Except.ok)).2.1 = [420, 493, 385].map stepMode ∧
    (stepMode 420).testBit 0 = true ∧
    (stepMode 420).testBit 6 = Nat.testBit 420 6 ∧
    (stepMode 493).testBit 2 = true :=
  ⟨(create_perm_walk_execute [420, 493, 385]).1,
    (create_perm_walk_execute [420, 493, 385]).2.1,
    (create_perm_walk_execute [420, 493, 385]).2.2.1 420,
    (create_perm_walk_execute [420, 493, 385]).2.2.2.1 420 6 (by norm_num) (by norm_num),
    (create_perm_walk_execute [420, 493, 385]).2.2.2.2 493 2 (by decide)⟩

/-- Helper: when `GetIP` succeeds, the address resolver was invoked
exactly once and the trace is `[lookupIPCall]`. -/
theorem GetIP_ok_shape (env : GetIPEnv) (ip : String)
    (h : (GetIP env).1 = Except.ok ip) :
    GetIP env = (Except.ok ip, [Event.lookupIPCall]) := by
  revert h
  unfold GetIP
  cases GetState env.hv with
  | error e => intro h; simp at h
  | ok s =>
    dsimp only
    by_cases hs : s ≠ MState.Running
    · rw [if_pos hs]; intro h; simp at h
    · rw [if_neg hs]
      cases env.lookupIPRes with
      | error e => intro h; simp at h
      | ok ip2 =>
        intro h
        have hips : ip2 = ip := by simpa using h
        rw [hips]

/-- The event trace of `r` consecutive empty-IP wait-loop attempts. -/
def emptyAttemptTrace : Nat → List Event
  | 0 => []
  | r + 1 => Event.getIPCall :: Event.lookupIPCall :: Event.sleep 3 :: emptyAttemptTrace r

theorem emptyAttemptTrace_counts (r : Nat) :
    (emptyAttemptTrace r).count Event.getIPCall = r ∧
    (emptyAttemptTrace r).count (Event.sleep 3) = r := by
  induction r with
  | zero => exact ⟨rfl, rfl⟩
  | succ r ih =>
    unfold emptyAttemptTrace
    constructor
    · rw [List.count_cons_self, List.count_cons_of_ne (by decide),
        List.count_cons_of_ne (by decide), ih.1]
    · rw [List.count_cons_of_ne (by decide), List.count_cons_of_ne (by decide),
        List.count_cons_self, ih.2]

/-- Helper: the IP-wait loop with every query answering "running, no
address yet" leaves the driver untouched, raises no error, and its
trace is `r` full attempts. -/
theorem ipWaitLoop_all_empty (q : Nat → GetIPEnv)
    (hq : ∀ j, (GetIP (q j)).1 = Except.ok "") :
    ∀ (r i : Nat) (d : Driver), ipWaitLoop q i r d = (d, none, emptyAttemptTrace r) := by
  intro r
  induction r with
  | zero => intro i d; rfl
  | succ r ih =>
    intro i d
    have hGi := GetIP_ok_shape (q i) "" (hq i)
    simp only [ipWaitLoop, hGi, if_true]
    rw [ih (i + 1) d]
    rfl

/-- Helper: if the first `k` attempts (from query index `i`) report an
empty IP and attempt `k` reports the non-empty `ip`, the loop records
`ip`, raises no error, and makes exactly `k + 1` queries. -/
theorem ipWaitLoop_found (q : Nat → GetIPEnv) (ip : String) (hip : ip ≠ "") :
    ∀ (k : Nat), ∀ (i r : Nat) (d : Driver), k < r →
      (∀ j, j < k → (GetIP (q (i + j))).1 = Except.ok "") →
      (GetIP (q (i + k))).1 = Except.ok ip →
      (ipWaitLoop q i r d).1 = { d with IPAddress := ip } ∧
      (ipWaitLoop q i r d).2.1 = none ∧
      ((ipWaitLoop q i r d).2.2.count Event.getIPCall) = k + 1 := by
  intro k
  induction k with
  | zero =>
    intro i r d hkr _ hk
    cases r with
    | zero => omega
    | succ r =>
      have hGi := GetIP_ok_shape (q i) ip (by simpa using hk)
      simp only [ipWaitLoop, hGi]
      rw [if_neg hip]
      exact ⟨rfl, rfl, rfl⟩
  | succ k ih =>
    intro i r d hkr hprev hk
    cases r with
    | zero => omega
    | succ r =>
      have h0 : (GetIP (q i)).1 = Except.ok "" := by simpa using hprev 0 (Nat.succ_pos k)
      have hGi := GetIP_ok_shape (q i) "" h0
      simp only [ipWaitLoop, hGi, if_true]
      have hprev2 : ∀ j, j < k → (GetIP (q (i + 1 + j))).1 = Except.ok "" := by
        intro j hj
        have hpj := hprev (j + 1) (by omega)
        rwa [show i + (j + 1) = i + 1 + j by omega] at hpj
      have hk2 : (GetIP (q (i + 1 + k))).1 = Except.ok ip := by
        rwa [show i + (k + 1) = i + 1 + k by omega] at hk
      obtain ⟨h1, h2, h3⟩ := ih (i + 1) r d (by omega) hprev2 hk2
      refine ⟨h1, h2, ?_⟩
      rw [List.count_append, List.count_cons_self, List.count_cons_of_ne (by decide),
        List.count_nil, List.count_cons_of_ne (by decide), h3]
      omega

/-- A machine reporting `Running` with no address yet. -/
def runningEmptyIP : GetIPEnv :=
  { hv := { getDomainErr := none, domStateRes := Except.ok DOMAIN_RUNNING },
    lookupIPRes := Except.ok "" }

/-- A machine reporting `Running` with an assigned address. -/
def runningWithIP : GetIPEnv :=
  { hv := { getDomainErr := none, domStateRes := Except.ok DOMAIN_RUNNING },
    lookupIPRes := Except.ok "192.168.39.2" }

/-- A machine whose domain reports `NOSTATE`, i.e. not (yet)
running. -/
def notRunningQuery : GetIPEnv :=
  { hv := { getDomainErr := none, domStateRes := Except.ok DOMAIN_NOSTATE },
    lookupIPRes := Except.ok "" }

/-- A driver record with no recorded IP. -/
def freshDriver : Driver :=
  { MachineName := "minikube", PrivateNetwork := "minikube-net", IPAddress := "" }

/-- A `Start` run whose IP query always answers "running, no IP". -/
def neverIPStartEnv : StartEnv :=
  { getDomainErr := none, domCreateErr := none, ipQuery := fun _ => runningEmptyIP,
    waitForSSHErr := none }

/-- A `Start` run whose first IP query already answers with an
address, and whose SSH wait succeeds. -/
def foundStartEnv : StartEnv :=
  { getDomainErr := none, domCreateErr := none, ipQuery := fun _ => runningWithIP,
    waitForSSHErr := none }

/-- C2 counterexample: when every IP query answers "running, no IP",
`Start` does fail with the 120-second timeout error — but it makes 41
IP-query attempts (the Go loop runs `i` from 0 to 40 inclusive) and
sleeps 41 times, not 40. -/
theorem start_never_ip_makes_41_attempts :
    (Start neverIPStartEnv freshDriver).2.1
        = Except.error "Machine didn\x27t return an IP after 120 seconds" ∧
    ((Start neverIPStartEnv freshDriver).2.2.count Event.getIPCall) = 41 ∧
    41 ≠ 40 :=
  ⟨rfl, rfl, by omega⟩

/-- C2 (amended): with every attempt answering an empty address and
no error, `Start` fails with the timeout condition after exactly 41
IP-query attempts, sleeping 3 seconds after each empty attempt; and
if the first `k ≤ 40` attempts are empty and attempt `k` returns a
non-empty IP, `Start` records it in the IP address field and stops
polling after exactly `k + 1` attempts. -/
theorem start_ip_wait_timeout_and_record (env : StartEnv) (d : Driver)
    (hdom : env.getDomainErr = none) (hcr : env.domCreateErr = none) :
    ((∀ j, (GetIP (env.ipQuery j)).1 = Except.ok "") → d.IPAddress = "" →
      (Start env d).2.1 = Except.error "Machine didn\x27t return an IP after 120 seconds" ∧
      ((Start env d).2.2.count Event.getIPCall) = 41 ∧
      ((Start env d).2.2.count (Event.sleep 3)) = 41) ∧
    (∀ (k : Nat) (ip : String), k ≤ 40 → ip ≠ "" → env.waitForSSHErr = none →
      (∀ j, j < k → (GetIP (env.ipQuery j)).1 = Except.ok "") →
      (GetIP (env.ipQuery k)).1 = Except.ok ip →
      (Start env d).1.IPAddress = ip ∧ (Start env d).2.1 = Except.ok () ∧
      ((Start env d).2.2.count Event.getIPCall) = k + 1) := by
  constructor
  · intro hq hd
    unfold Start
    rw [hdom, hcr]
    dsimp only
    rw [ipWaitLoop_all_empty env.ipQuery hq 41 0 d]
    dsimp only
    rw [if_pos hd]
    refine ⟨rfl, ?_, ?_⟩
    · rw [List.count_cons_of_ne (by decide), (emptyAttemptTrace_counts 41).1]
    · rw [List.count_cons_of_ne (by decide), (emptyAttemptTrace_counts 41).2]
  · intro k ip hk40 hip hssh hprev hfound
    unfold Start
    rw [hdom, hcr]
    dsimp only
    have hprev0 : ∀ j, j < k → (GetIP (env.ipQuery (0 + j))).1 = Except.ok "" := by
      intro j hj
      rw [Nat.zero_add]
      exact hprev j hj
    have hfound0 : (GetIP (env.ipQuery (0 + k))).1 = Except.ok ip := by
      rw [Nat.zero_add]
      exact hfound
    obtain ⟨h1, h2, h3⟩ :=
      ipWaitLoop_found env.ipQuery ip hip k 0 41 d (by omega) hprev0 hfound0
    rw [h2]
    dsimp only
    rw [h1]
    dsimp only
    rw [if_neg hip, hssh]
    refine ⟨rfl, rfl, ?_⟩
    rw [List.count_cons_of_ne (by decide), List.count_append, h3,
      List.count_cons_of_ne (by decide), List.count_nil]

/-- C2 witness: the timeout half at the never-an-IP run, and the
recording half at a run whose first query already has the address. -/
theorem start_ip_wait_timeout_and_record_witness :
    (Start neverIPStartEnv freshDriver).2.1
        = Except.error "Machine didn\x27t return an IP after 120 seconds" ∧
    (Start foundStartEnv freshDriver).1.IPAddress = "192.168.39.2" ∧
    ((Start foundStartEnv freshDriver).2.2.count Event.getIPCall) = 1 :=
  ⟨((start_ip_wait_timeout_and_record neverIPStartEnv freshDriver rfl rfl).1
      (fun _ => rfl) rfl).1,
    ((start_ip_wait_timeout_and_record foundStartEnv freshDriver rfl rfl).2
      0 "192.168.39.2" (by omega) (by decide) rfl
      (fun j hj => absurd hj (Nat.not_lt_zero j)) rfl).1,
    ((start_ip_wait_timeout_and_record foundStartEnv freshDriver rfl rfl).2
      0 "192.168.39.2" (by omega) (by decide) rfl
      (fun j hj => absurd hj (Nat.not_lt_zero j)) rfl).2.2⟩

/-- A `Start` run whose very first IP query sees a domain in
`NOSTATE`, i.e. a machine not (yet) running. -/
def notRunningStartEnv : StartEnv :=
  { getDomainErr := none, domCreateErr := none, ipQuery := fun _ => notRunningQuery,
    waitForSSHErr := none }

/-- C4 counterexample: an attempt on which the machine is not (yet)
running is NOT a retry signal — `GetIP` surfaces it as the non-nil
error "host is not running", and `Start` aborts after that single
attempt (one `getIPCall`, no sleep) instead of continuing to poll. -/
theorem start_aborts_on_not_running_attempt :
    (Start notRunningStartEnv freshDriver).2.1
        = Except.error "getting ip during machine start: host is not running" ∧
    ((Start notRunningStartEnv freshDriver).2.2.count Event.getIPCall) = 1 ∧
    ((Start notRunningStartEnv freshDriver).2.2.count (Event.sleep 3)) = 0 :=
  ⟨rfl, rfl, rfl⟩

/-- C4 (amended): inside the IP-wait loop, an attempt whose IP query
returns an empty address with no error is a retry signal — the loop
sleeps and proceeds to the next attempt — while any non-nil error
from the IP query aborts the wait; and when the translated state of
an attempt is anything other than `Running`, its IP query returns the
non-nil error "host is not running" (so a not-yet-running machine
aborts the wait rather than being retried). -/
theorem ip_wait_retry_policy (q : Nat → GetIPEnv) (i r : Nat) (d : Driver) :
    ((GetIP (q i)).1 = Except.ok "" →
      ipWaitLoop q i (r + 1) d
        = ((ipWaitLoop q (i + 1) r d).1, (ipWaitLoop q (i + 1) r d).2.1,
            Event.getIPCall :: (GetIP (q i)).2
              ++ Event.sleep 3 :: (ipWaitLoop q (i + 1) r d).2.2)) ∧
    (∀ e, (GetIP (q i)).1 = Except.error e →
      ipWaitLoop q i (r + 1) d
        = (d, some (wrap "getting ip during machine start" e),
            Event.getIPCall :: (GetIP (q i)).2)) ∧
    (∀ s, GetState ((q i).hv) = Except.ok s → s ≠ MState.Running →
      (GetIP (q i)).1 = Except.error "host is not running") := by
  refine ⟨?_, ?_, ?_⟩
  · intro h
    have hGi := GetIP_ok_shape (q i) "" h
    simp only [ipWaitLoop, hGi, if_true]
  · intro e he
    rcases hG : GetIP (q i) with ⟨res, evs⟩
    rw [hG] at he
    simp only at he
    subst he
    simp only [ipWaitLoop, hG]
  · intro s hs hsr
    rw [GetIP_not_running_shape (q i) s hs hsr]

/-- C4 witness: a retry on "running, no IP yet", and an abort on
"domain in NOSTATE". -/
theorem ip_wait_retry_policy_witness :
    ipWaitLoop (fun _ => runningEmptyIP) 0 1 freshDriver
      = ((ipWaitLoop (fun _ => runningEmptyIP) 1 0 freshDriver).1,
          (ipWaitLoop (fun _ => runningEmptyIP) 1 0 freshDriver).2.1,
          Event.getIPCall :: (GetIP runningEmptyIP).2
            ++ Event.sleep 3 :: (ipWaitLoop (fun _ => runningEmptyIP) 1 0 freshDriver).2.2) ∧
    (GetIP notRunningQuery).1 = Except.error "host is not running" :=
  ⟨(ip_wait_retry_policy (fun _ => runningEmptyIP) 0 0 freshDriver).1 rfl,
    (ip_wait_retry_policy (fun _ => notRunningQuery) 0 0 freshDriver).2.2
      MState.None rfl (by decide)⟩

/-- A `Start` run that obtains an IP on the first attempt but whose
SSH readiness wait then fails. -/
def sshFailStartEnv : StartEnv :=
  { getDomainErr := none, domCreateErr := none, ipQuery := fun _ => runningWithIP,
    waitForSSHErr := some "ssh wait timeout" }

/-- C9: whenever `Start` reaches the SSH readiness wait (the IP-wait
loop raised no error and recorded a non-empty IP) and that wait
fails, `Start` clears the machine's recorded IP address back to the
empty string and returns the readiness failure wrapped as
"SSH not available after waiting". -/
theorem start_ssh_failure_clears_ip (env : StartEnv) (d : Driver) (e : String)
    (hdom : env.getDomainErr = none) (hcr : env.domCreateErr = none)
    (hloop : (ipWaitLoop env.ipQuery 0 41 d).2.1 = none)
    (hip : (ipWaitLoop env.ipQuery 0 41 d).1.IPAddress ≠ "")
    (hssh : env.waitForSSHErr = some e) :
    (Start env d).1.IPAddress = "" ∧
    (Start env d).2.1 = Except.error (wrap "SSH not available after waiting" e) := by
  unfold Start
  rw [hdom, hcr]
  dsimp only
  rw [hloop]
  dsimp only
  rw [if_neg hip, hssh]
  exact ⟨rfl, rfl⟩

/-- C9 witness: first attempt finds the IP, then SSH fails. -/
theorem start_ssh_failure_clears_ip_witness :
    (Start sshFailStartEnv freshDriver).1.IPAddress = "" ∧
    (Start sshFailStartEnv freshDriver).2.1
      = Except.error (wrap "SSH not available after waiting" "ssh wait timeout") :=
  start_ssh_failure_clears_ip sshFailStartEnv freshDriver "ssh wait timeout"
    rfl rfl rfl (by decide) rfl

end KVM
